import Mathlib

/-!
Shallow embedding of the indexer's round-based accounting engine and its
round-commit protocol, translated from `accounting/accounting.go` and
`idb/postgres.go`.

Modelling conventions:
* Addresses are `Nat` (`0` stands for the all-zero `[32]byte` address,
  matching `addrIsZero` / `Address.IsZero` in the source).
* `uint64` quantities become `Nat`; `int64` deltas and the `bigint` SQL
  columns become `Int`.  The one `uint64 → int64` conversion whose operand
  is not otherwise bounded — the asset-creation credit of
  `AssetParams.Total` — is modelled exactly by `int64OfUint64`, which
  wraps values ≥ 2^63.  The remaining casts (fees, payment amounts,
  rewards, and the watermark round, the latter sourced from a `bigint`
  column) act on values below 2^63 in every claim under study and are
  rendered as the lossless `Nat → Int` coercion.
* SQL tables are lists of rows; `INSERT ... ON CONFLICT` statements become
  explicit update-or-append functions.
* Statement execution inside the storage transaction may fail; a failure
  oracle `fails : Stmt → Bool` decides which statement executions error,
  mirroring the `err` results of `Exec`/`Scan`/`Begin`/`Commit` in Go.
  An `Except.error` result of the commit function means the deferred
  `tx.Rollback()` ran: the caller keeps the original database state.
-/

/-- Address type; the Go source uses `[32]byte`, with `0` the zero address. -/
abbrev Addr := Nat

/-- `types.AssetParams` as used by the engine: `Total`, `DefaultFrozen`, and
one `Nat` abstracting every remaining configuration field (unit name,
manager, …).  `IsZero` in Go compares against the zero value of the whole
struct. -/
structure AssetParams where
  total : Nat := 0
  defaultFrozen : Bool := false
  rest : Nat := 0
deriving DecidableEq, Repr

namespace AssetParams

/-- `AssetParams.IsZero`: the parameters equal the zero value. -/
def IsZero (p : AssetParams) : Bool :=
  p.total == 0 && p.defaultFrozen == false && p.rest == 0

end AssetParams

/-- Row of the `account` table: `(addr, microalgos, rewardsbase)`. -/
structure AccountRow where
  addr : Addr
  microalgos : Int
  rewardsbase : Nat
deriving DecidableEq, Repr

/-- Row of the `account_asset` table: `(addr, assetid, amount, frozen)`. -/
structure AccountAssetRow where
  addr : Addr
  assetid : Nat
  amount : Int
  frozen : Bool
deriving DecidableEq, Repr

/-- Row of the `asset` table: `(index, creator_addr, params)`. -/
structure AssetRow where
  index : Nat
  creator : Addr
  params : AssetParams
deriving DecidableEq, Repr

/-- The fields of a block header the engine reads via `GetBlock`. -/
structure BlockHeader where
  feeSink : Addr := 0
  rewardsPool : Addr := 0
  rewardsLevel : Nat := 0
deriving DecidableEq, Repr

/-- The persistent database state touched by the core: the `account`,
`account_asset` and `asset` tables, the `block_header` table, and the
`account_round` watermark stored in the `metastate` table under key
`state` (`none` = no `state` row yet, i.e. `sql.ErrNoRows`). -/
structure DbState where
  account : List AccountRow := []
  accountAsset : List AccountAssetRow := []
  asset : List AssetRow := []
  blockHeaders : List (Nat × BlockHeader) := []
  accountRound : Option Int := none
deriving DecidableEq, Repr

/-- `idb.AssetUpdate`. -/
structure AssetUpdate where
  addr : Addr
  assetId : Nat
  delta : Int
  defFrozen : Bool
deriving DecidableEq, Repr

/-- `idb.AcfgUpdate`. -/
structure AcfgUpdate where
  assetId : Nat
  creator : Addr
  params : AssetParams
deriving DecidableEq, Repr

/-- `idb.FreezeUpdate`. -/
structure FreezeUpdate where
  addr : Addr
  assetId : Nat
  frozen : Bool
deriving DecidableEq, Repr

/-- `idb.AssetClose`. -/
structure AssetClose where
  closeTo : Addr
  assetId : Nat
  sender : Addr
deriving DecidableEq, Repr

/-- `idb.RoundUpdates`: one round's pending delta batch.  The Go
`AlgoUpdates` map is modelled as an association list ordered by first
insertion (map iteration order is immaterial here: the algo upserts of a
commit touch pairwise distinct addresses' rows independently). -/
structure RoundUpdates where
  algoUpdates : List (Addr × Int) := []
  assetUpdates : List AssetUpdate := []
  acfgUpdates : List AcfgUpdate := []
  freezeUpdates : List FreezeUpdate := []
  assetCloses : List AssetClose := []
  assetDestroys : List Nat := []
deriving DecidableEq, Repr

/-- The statement executions of `CommitRoundAccounting` that can fail. -/
inductive Stmt where
  | beginTx
  | setAlgo (addr : Addr) (delta : Int) (rewardsBase : Nat)
  | setAcfg (assetId : Nat) (creator : Addr)
  | setAsset (addr : Addr) (assetId : Nat) (delta : Int)
  | setFreeze (addr : Addr) (assetId : Nat) (frozen : Bool)
  | closeSend (closeTo : Addr) (assetId : Nat) (sender : Addr)
  | closeDel (sender : Addr)
  | destroyDel (assetId : Nat)
  | readState
  | writeState (round : Nat)
  | commitTx
deriving DecidableEq, Repr

/-- Failure oracle under which every statement succeeds. -/
def noFail : Stmt → Bool := fun _ => false

/-- The distinct error returns of `CommitRoundAccounting` (the Go code
wraps each in a distinct `fmt.Errorf` message). -/
inductive CommitErr where
  | beginErr
  | algoErr
  | acfgErr
  | assetErr
  | freezeErr
  | closeSendErr
  | closeDelErr
  | readStateErr
  | writeStateErr
  | commitErr
deriving DecidableEq, Repr

/-- `INSERT INTO account (addr, microalgos, rewardsbase) VALUES ($1,$2,$3)
ON CONFLICT (addr) DO UPDATE SET microalgos = account.microalgos +
EXCLUDED.microalgos, rewardsbase = EXCLUDED.rewardsbase`. -/
def upsertAlgo (t : List AccountRow) (addr : Addr) (delta : Int) (rb : Nat) :
    List AccountRow :=
  if t.any (fun r => r.addr == addr) then
    t.map (fun r =>
      if r.addr == addr then
        { r with microalgos := r.microalgos + delta, rewardsbase := rb }
      else r)
  else t ++ [⟨addr, delta, rb⟩]

/-- `INSERT INTO asset (index, creator_addr, params) VALUES ($1,$2,$3)
ON CONFLICT (index) DO UPDATE SET params = EXCLUDED.params`
(the creator column is not updated on conflict). -/
def upsertAcfg (t : List AssetRow) (assetId : Nat) (creator : Addr)
    (params : AssetParams) : List AssetRow :=
  if t.any (fun r => r.index == assetId) then
    t.map (fun r => if r.index == assetId then { r with params := params } else r)
  else t ++ [⟨assetId, creator, params⟩]

/-- `INSERT INTO account_asset (addr, assetid, amount, frozen) VALUES
($1,$2,$3,$4) ON CONFLICT (addr, assetid) DO UPDATE SET amount =
account_asset.amount + EXCLUDED.amount` (frozen kept on conflict). -/
def upsertAssetAdd (t : List AccountAssetRow) (addr : Addr) (assetId : Nat)
    (amount : Int) (frozen : Bool) : List AccountAssetRow :=
  if t.any (fun r => r.addr == addr && r.assetid == assetId) then
    t.map (fun r =>
      if r.addr == addr && r.assetid == assetId then
        { r with amount := r.amount + amount }
      else r)
  else t ++ [⟨addr, assetId, amount, frozen⟩]

/-- `INSERT INTO account_asset (addr, assetid, amount, frozen) VALUES
($1,$2,0,$3) ON CONFLICT (addr, assetid) DO UPDATE SET frozen =
EXCLUDED.frozen`. -/
def upsertFreeze (t : List AccountAssetRow) (addr : Addr) (assetId : Nat)
    (frozen : Bool) : List AccountAssetRow :=
  if t.any (fun r => r.addr == addr && r.assetid == assetId) then
    t.map (fun r =>
      if r.addr == addr && r.assetid == assetId then { r with frozen := frozen }
      else r)
  else t ++ [⟨addr, assetId, 0, frozen⟩]

/-- The first statement of an asset close:
`INSERT INTO account_asset (addr, assetid, amount)
 SELECT $1, $2, x.amount FROM account_asset x WHERE x.addr = $3
 ON CONFLICT (addr, assetid) DO UPDATE SET amount = account_asset.amount +
 EXCLUDED.amount`.
The `SELECT` filters on the sender's address only (no assetid condition),
so it produces one row per asset the sender currently holds; each produced
row is upsert-added at key `(closeTo, assetId)`.  The `frozen` column is
absent from the insert list, so a freshly created row gets the column
default (`false` here). -/
def applyCloseSend (t : List AccountAssetRow) (closeTo : Addr) (assetId : Nat)
    (sender : Addr) : List AccountAssetRow :=
  (t.filter (fun r => r.addr == sender)).foldl
    (fun acc x => upsertAssetAdd acc closeTo assetId x.amount false) t

/-- The second statement of an asset close:
`DELETE FROM account_asset WHERE addr = $1` — it filters on the sender's
address only, with no assetid condition. -/
def applyCloseDel (t : List AccountAssetRow) (sender : Addr) :
    List AccountAssetRow :=
  t.filter (fun r => ¬(r.addr == sender))

/-- `DELETE FROM account_asset WHERE assetid = $1`. -/
def applyDestroyDel (t : List AccountAssetRow) (assetId : Nat) :
    List AccountAssetRow :=
  t.filter (fun r => ¬(r.assetid == assetId))

/-- The algo-updates loop of `CommitRoundAccounting`. -/
def applyAlgoUpdates (fails : Stmt → Bool) (s : DbState)
    (us : List (Addr × Int)) (rb : Nat) : Except CommitErr DbState :=
  us.foldlM (fun st u =>
    if fails (.setAlgo u.1 u.2 rb) then .error .algoErr
    else .ok { st with account := upsertAlgo st.account u.1 u.2 rb }) s

/-- The asset-config-updates loop of `CommitRoundAccounting`. -/
def applyAcfgUpdates (fails : Stmt → Bool) (s : DbState)
    (us : List AcfgUpdate) : Except CommitErr DbState :=
  us.foldlM (fun st u =>
    if fails (.setAcfg u.assetId u.creator) then .error .acfgErr
    else .ok { st with asset := upsertAcfg st.asset u.assetId u.creator u.params }) s

/-- The asset-holding-updates loop of `CommitRoundAccounting`. -/
def applyAssetUpdates (fails : Stmt → Bool) (s : DbState)
    (us : List AssetUpdate) : Except CommitErr DbState :=
  us.foldlM (fun st u =>
    if fails (.setAsset u.addr u.assetId u.delta) then .error .assetErr
    else .ok { st with accountAsset := upsertAssetAdd st.accountAsset u.addr u.assetId u.delta u.defFrozen }) s

/-- The freeze-updates loop of `CommitRoundAccounting`. -/
def applyFreezeUpdates (fails : Stmt → Bool) (s : DbState)
    (us : List FreezeUpdate) : Except CommitErr DbState :=
  us.foldlM (fun st u =>
    if fails (.setFreeze u.addr u.assetId u.frozen) then .error .freezeErr
    else .ok { st with accountAsset := upsertFreeze st.accountAsset u.addr u.assetId u.frozen }) s

/-- The asset-closes loop of `CommitRoundAccounting`: per close, first the
insert-from-select, then the delete; each checked for failure. -/
def applyAssetCloses (fails : Stmt → Bool) (s : DbState)
    (us : List AssetClose) : Except CommitErr DbState :=
  us.foldlM (fun st u =>
    if fails (.closeSend u.closeTo u.assetId u.sender) then .error .closeSendErr
    else
      let st1 : DbState := { st with accountAsset := applyCloseSend st.accountAsset u.closeTo u.assetId u.sender }
      if fails (.closeDel u.sender) then .error .closeDelErr
      else .ok { st1 with accountAsset := applyCloseDel st1.accountAsset u.sender }) s

/-- The asset-destroys loop of `CommitRoundAccounting`.  The Go code runs
`ads.Exec(assetId)` and discards its result; the enclosing
`if err != nil` re-checks the (nil) error of the earlier `Prepare`, so a
failing delete is silently skipped and the loop never aborts. -/
def applyAssetDestroys (fails : Stmt → Bool) (s : DbState)
    (ids : List Nat) : DbState :=
  ids.foldl (fun st assetId =>
    if fails (.destroyDel assetId) then st
    else { st with accountAsset := applyDestroyDel st.accountAsset assetId }) s

/-- Whether any of the six delta categories is nonempty — the Go code sets
a local `any` flag inside each nonempty category's block. -/
def anyUpdates (u : RoundUpdates) : Bool :=
  !u.algoUpdates.isEmpty || !u.acfgUpdates.isEmpty || !u.assetUpdates.isEmpty ||
  !u.freezeUpdates.isEmpty || !u.assetCloses.isEmpty || !u.assetDestroys.isEmpty

/-- `CommitRoundAccounting(updates, round, rewardsBase)` from
`idb/postgres.go`.  All statements run inside one storage transaction; an
`Except.error` result models "an error was returned and the deferred
`tx.Rollback()` discarded every change".  On `.ok` the returned state is
the committed database.  If no category is nonempty the function returns
before touching the watermark (`if !any { return }`), rolling back the
(empty) transaction.  Otherwise it reads the metastate `state` row
(`sql.ErrNoRows` is tolerated), overwrites `AccountRound` with `round`,
upserts the row, and commits. -/
def CommitRoundAccounting (fails : Stmt → Bool) (s : DbState)
    (updates : RoundUpdates) (round : Nat) (rewardsBase : Nat) :
    Except CommitErr DbState :=
  if fails .beginTx then .error .beginErr
  else
    match applyAlgoUpdates fails s updates.algoUpdates rewardsBase with
    | .error e => .error e
    | .ok s1 =>
      match applyAcfgUpdates fails s1 updates.acfgUpdates with
      | .error e => .error e
      | .ok s2 =>
        match applyAssetUpdates fails s2 updates.assetUpdates with
        | .error e => .error e
        | .ok s3 =>
          match applyFreezeUpdates fails s3 updates.freezeUpdates with
          | .error e => .error e
          | .ok s4 =>
            match applyAssetCloses fails s4 updates.assetCloses with
            | .error e => .error e
            | .ok s5 =>
              let s6 := applyAssetDestroys fails s5 updates.assetDestroys
              if anyUpdates updates then
                if fails .readState then .error .readStateErr
                else if fails (.writeState round) then .error .writeStateErr
                else if fails .commitTx then .error .commitErr
                else .ok { s6 with accountRound := some (round : Int) }
              else .ok s

/-- Amount of the `(addr, assetid)` holding row, `none` when absent. -/
def aaLookup (t : List AccountAssetRow) (addr : Addr) (assetId : Nat) :
    Option Int :=
  (t.find? (fun r => r.addr == addr && r.assetid == assetId)).map
    (fun r => r.amount)

/-!
## The accounting engine (`accounting/accounting.go`)
-/

/-- `types.Transaction`: the inner transaction fields consumed by the
engine (`Type` is rendered as `txType`). -/
structure Transaction where
  txType : String := ""
  sender : Addr := 0
  fee : Nat := 0
  amount : Nat := 0
  receiver : Addr := 0
  closeRemainderTo : Addr := 0
  configAsset : Nat := 0
  assetParams : AssetParams := {}
  xferAsset : Nat := 0
  assetAmount : Nat := 0
  assetSender : Addr := 0
  assetReceiver : Addr := 0
  assetCloseTo : Addr := 0
  freezeAccount : Addr := 0
  freezeAsset : Nat := 0
  assetFrozen : Bool := false
deriving DecidableEq, Repr

/-- `types.SignedTxnInBlock`: the transaction plus the apply-data values
computed by ledger execution. -/
structure SignedTxnInBlock where
  txn : Transaction := {}
  senderRewards : Nat := 0
  receiverRewards : Nat := 0
  closeRewards : Nat := 0
  closingAmount : Nat := 0
deriving DecidableEq, Repr

/-- Raw transaction bytes, seen through the external codec boundary:
`msgpack.Decode` either fails or yields the structured transaction. -/
abbrev TxnBytes := Except Unit SignedTxnInBlock

/-- `AccountingState` (the `db` handle is passed explicitly to the
operations that need it). -/
structure AccountingState where
  defaultFrozen : List (Nat × Bool) := []
  currentRound : Nat := 0
  updates : RoundUpdates := {}
  feeAddr : Addr := 0
  rewardAddr : Addr := 0
  rewardsLevel : Nat := 0
  txnCounter : Nat := 0
deriving DecidableEq, Repr

/-- `accounting.New(db)`: zero-valued state with an empty
default-frozen cache. -/
def New : AccountingState := {}

/-- Lookup in the `defaultFrozen` cache; a missing key reads the Go map's
zero value `false`. -/
def dfLookup (l : List (Nat × Bool)) (assetId : Nat) : Bool :=
  ((l.find? (fun p => p.1 == assetId)).map (fun p => p.2)).getD false

/-- Store into the `defaultFrozen` cache. -/
def dfSet (l : List (Nat × Bool)) (assetId : Nat) (v : Bool) :
    List (Nat × Bool) :=
  if l.any (fun p => p.1 == assetId) then
    l.map (fun p => if p.1 == assetId then (p.1, v) else p)
  else l ++ [(assetId, v)]

/-- `AlgoUpdates[addr] = AlgoUpdates[addr] + d` on the association-list
rendering of the Go map (a missing key reads 0). -/
def algoAdd (l : List (Addr × Int)) (addr : Addr) (d : Int) :
    List (Addr × Int) :=
  if l.any (fun p => p.1 == addr) then
    l.map (fun p => if p.1 == addr then (p.1, p.2 + d) else p)
  else l ++ [(addr, d)]

/-- `updateAlgo`. -/
def updateAlgo (e : AccountingState) (addr : Addr) (d : Int) :
    AccountingState :=
  { e with updates := { e.updates with algoUpdates := algoAdd e.updates.algoUpdates addr d } }

/-- `updateAsset`: appends an asset-holding delta carrying the cached
default-frozen flag of the asset at the time of the update. -/
def updateAsset (e : AccountingState) (addr : Addr) (assetId : Nat)
    (d : Int) : AccountingState :=
  { e with updates := { e.updates with assetUpdates := e.updates.assetUpdates ++ [⟨addr, assetId, d, dfLookup e.defaultFrozen assetId⟩] } }

/-- `closeAsset`. -/
def closeAsset (e : AccountingState) (from_ : Addr) (assetId : Nat)
    (to_ : Addr) : AccountingState :=
  { e with updates := { e.updates with assetCloses := e.updates.assetCloses ++ [AssetClose.mk to_ assetId from_] } }

/-- `freezeAsset`. -/
def freezeAsset (e : AccountingState) (addr : Addr) (assetId : Nat)
    (frozen : Bool) : AccountingState :=
  { e with updates := { e.updates with freezeUpdates := e.updates.freezeUpdates ++ [⟨addr, assetId, frozen⟩] } }

/-- `destroyAsset`. -/
def destroyAsset (e : AccountingState) (assetId : Nat) : AccountingState :=
  { e with updates := { e.updates with assetDestroys := e.updates.assetDestroys ++ [assetId] } }

/-- The engine-level error returns of `AddTransaction` and its callees
(the Go code wraps each in a distinct `fmt.Errorf` message). -/
inductive AddTxnErr where
  | decodeErr
  | commitErr (e : CommitErr)
  | initErr
  | unknownType
deriving DecidableEq, Repr

/-- `initRound`: loads fee sink, rewards pool and rewards level from the
persisted block header of `round` via `db.GetBlock`; a missing header is
the `NotFound` error and leaves the engine untouched. -/
def initRound (s : DbState) (e : AccountingState) (round : Nat) :
    Except AddTxnErr AccountingState :=
  match (s.blockHeaders.find? (fun p => p.1 == round)).map (fun p => p.2) with
  | none => .error .initErr
  | some b => .ok { e with feeAddr := b.feeSink, rewardAddr := b.rewardsPool, rewardsLevel := b.rewardsLevel, currentRound := round }

/-- `commitRound` (engine side): hands the pending batch to
`CommitRoundAccounting` for `currentRound` with `rewardsLevel` as the
rewards base; on success all six delta categories are reset to nil.  On
error the database is rolled back and the engine fields are left as they
were. -/
def commitRound (fails : Stmt → Bool) (s : DbState) (e : AccountingState) :
    Except CommitErr (DbState × AccountingState) :=
  match CommitRoundAccounting fails s e.updates e.currentRound e.rewardsLevel with
  | .error err => .error err
  | .ok s2 => .ok (s2, { e with updates := {} })

/-- `Close`: commits the final open round's batch. -/
def Close (fails : Stmt → Bool) (s : DbState) (e : AccountingState) :
    Except CommitErr (DbState × AccountingState) :=
  commitRound fails s e

/-- The round-transition prologue of `AddTransaction`: when the incoming
round differs from `currentRound`, commit the pending batch, then
initialize the context for the new round.  The returned database/engine
pair reflects exactly the mutations performed before a (possible) error
return: a commit failure leaves both untouched; an init failure keeps the
committed database and the cleared batch. -/
def roundTransition (fails : Stmt → Bool) (s : DbState)
    (e : AccountingState) (round : Nat) :
    DbState × AccountingState × Option AddTxnErr :=
  if e.currentRound == round then (s, e, none)
  else
    match commitRound fails s e with
    | .error c => (s, e, some (.commitErr c))
    | .ok (s2, e2) =>
      match initRound s2 e2 round with
      | .error _ => (s2, e2, some .initErr)
      | .ok e3 => (s2, e3, none)

/-- The `"pay"` branch of `AddTransaction`. -/
def payDeltas (e : AccountingState) (stxn : SignedTxnInBlock) :
    AccountingState :=
  let amount : Int := (stxn.txn.amount : Int)
  let e1 := if amount ≠ 0 then updateAlgo (updateAlgo e stxn.txn.sender (-amount)) stxn.txn.receiver amount else e
  let e2 := if stxn.closingAmount ≠ 0 then updateAlgo (updateAlgo e1 stxn.txn.sender (-(stxn.closingAmount : Int))) stxn.txn.closeRemainderTo (stxn.closingAmount : Int) else e1
  let e3 := if stxn.receiverRewards ≠ 0 then updateAlgo (updateAlgo e2 stxn.txn.receiver (stxn.receiverRewards : Int)) e2.rewardAddr (-(stxn.receiverRewards : Int)) else e2
  if stxn.closeRewards ≠ 0 then updateAlgo (updateAlgo e3 stxn.txn.closeRemainderTo (stxn.closeRewards : Int)) e3.rewardAddr (-(stxn.closeRewards : Int)) else e3

/-- Go's `int64(x)` conversion of a `uint64` value `x < 2^64`: values
below 2^63 are unchanged, larger values wrap to `x - 2^64`
(two's-complement reinterpretation). -/
def int64OfUint64 (x : Nat) : Int :=
  if x < 2 ^ 63 then (x : Int) else (x : Int) - 2 ^ 64

/-- The `"acfg"` branch of `AddTransaction`: a target asset ID of 0 means
creation and the new ID is `txnCounter + intra + 1`; zero-valued
parameters mean destruction; otherwise the parameter upsert is appended,
the default-frozen cache updated, and on true creation with nonzero total
the creator is credited with `int64(Total)` — the total supply
reinterpreted as a signed 64-bit value, which wraps negative when
`Total ≥ 2^63` (the nonzero test itself is on the unconverted `uint64`). -/
def acfgDeltas (e : AccountingState) (intra : Nat)
    (stxn : SignedTxnInBlock) : AccountingState :=
  let assetId := if stxn.txn.configAsset == 0 then e.txnCounter + intra + 1 else stxn.txn.configAsset
  if stxn.txn.assetParams.IsZero then destroyAsset e assetId
  else
    let e1 := { e with updates := { e.updates with acfgUpdates := e.updates.acfgUpdates ++ [AcfgUpdate.mk assetId stxn.txn.sender stxn.txn.assetParams] } }
    let e2 := { e1 with defaultFrozen := dfSet e1.defaultFrozen assetId stxn.txn.assetParams.defaultFrozen }
    if stxn.txn.configAsset == 0 && stxn.txn.assetParams.total != 0 then
      updateAsset e2 stxn.txn.sender assetId (int64OfUint64 stxn.txn.assetParams.total)
    else e2

/-- The `"axfer"` branch of `AddTransaction`: the effective sender is the
clawback sender when present, else the transaction sender. -/
def axferDeltas (e : AccountingState) (stxn : SignedTxnInBlock) :
    AccountingState :=
  let sender := if stxn.txn.assetSender == 0 then stxn.txn.sender else stxn.txn.assetSender
  let e1 := if stxn.txn.assetAmount ≠ 0 then updateAsset (updateAsset e sender stxn.txn.xferAsset (-(stxn.txn.assetAmount : Int))) stxn.txn.assetReceiver stxn.txn.xferAsset (stxn.txn.assetAmount : Int) else e
  if stxn.txn.assetCloseTo ≠ 0 then closeAsset e1 sender stxn.txn.xferAsset stxn.txn.assetCloseTo else e1

/-- The per-type dispatch of `AddTransaction`, applied after the universal
fee and sender-reward deltas; any unknown type tag is the
`UNKNOWN TYPE` error, returned after those deltas were recorded. -/
def typeDispatch (e : AccountingState) (intra : Nat)
    (stxn : SignedTxnInBlock) : AccountingState × Option AddTxnErr :=
  if stxn.txn.txType == "pay" then (payDeltas e stxn, none)
  else if stxn.txn.txType == "keyreg" then (e, none)
  else if stxn.txn.txType == "acfg" then (acfgDeltas e intra stxn, none)
  else if stxn.txn.txType == "axfer" then (axferDeltas e stxn, none)
  else if stxn.txn.txType == "afrz" then
    (freezeAsset e stxn.txn.freezeAccount stxn.txn.freezeAsset stxn.txn.assetFrozen, none)
  else (e, some .unknownType)

/-- The universal prefix of every transaction's delta recording
(`accounting.go` lines 130–136): debit the sender by the fee, credit the
fee sink by the fee, and, when the ledger recorded a sender reward, credit
the sender and debit the rewards pool by it. -/
def feeAndRewardDeltas (e : AccountingState) (stxn : SignedTxnInBlock) :
    AccountingState :=
  let e1 := updateAlgo e stxn.txn.sender (-(stxn.txn.fee : Int))
  let e2 := updateAlgo e1 e1.feeAddr (stxn.txn.fee : Int)
  if stxn.senderRewards ≠ 0 then
    updateAlgo (updateAlgo e2 stxn.txn.sender (stxn.senderRewards : Int)) e2.rewardAddr (-(stxn.senderRewards : Int))
  else e2

/-- `AddTransaction(round, intra, txnbytes)`: decode, transition rounds if
needed, record the universal fee and sender-reward deltas, then dispatch
on the transaction type.  The result carries the database, the engine
state as mutated so far, and the error if any — mirroring Go's in-place
mutation of the receiver before an error return. -/
def AddTransaction (fails : Stmt → Bool) (s : DbState)
    (e : AccountingState) (round : Nat) (intra : Nat)
    (txnbytes : TxnBytes) : DbState × AccountingState × Option AddTxnErr :=
  match txnbytes with
  | .error _ => (s, e, some .decodeErr)
  | .ok stxn =>
    match roundTransition fails s e round with
    | (s2, e2, some err) => (s2, e2, some err)
    | (s2, e2, none) =>
      match typeDispatch (feeAndRewardDeltas e2 stxn) intra stxn with
      | (e6, err) => (s2, e6, err)

/-!
## The transaction cursor thread (`yieldTxnsThread` in `idb/postgres.go`)
-/

instance {ε α : Type _} [DecidableEq ε] [DecidableEq α] :
    DecidableEq (Except ε α) := fun
  | .error e, .error f =>
    if h : e = f then .isTrue (by rw [h])
    else .isFalse (by intro hh; cases hh; exact h rfl)
  | .error _, .ok _ => .isFalse (by intro h; cases h)
  | .ok _, .error _ => .isFalse (by intro h; cases h)
  | .ok a, .ok b =>
    if h : a = b then .isTrue (by rw [h])
    else .isFalse (by intro hh; cases hh; exact h rfl)

/-- `idb.TxnRow`: one element of the cursor's output channel.  `error`
records whether the `Error` field is set (a failed `rows.Scan`). -/
structure TxnRow where
  round : Nat := 0
  intra : Nat := 0
  txnBytes : TxnBytes := .error ()
  error : Bool := false
deriving DecidableEq

/-- One `rows.Next`/`rows.Scan` step of the underlying store: either the
scanned `(round, intra, txnbytes)` triple or a scan error. -/
abbrev ScanRow := Except Unit (Nat × Nat × TxnBytes)

/-- The per-iteration body of `yieldTxnsThread`: a scan error produces a
zero-valued row with `Error` set; otherwise the scanned fields are
copied. -/
def scanToTxnRow : ScanRow → TxnRow
  | .error _ => { error := true }
  | .ok (r, i, b) => { round := r, intra := i, txnBytes := b }

/-- `yieldTxnsThread`, modelled over the list of scan outcomes the
underlying rows iterator produces, with the context never cancelled.
Every iteration sends its row on the channel (the output list) and then
continues: both `break` statements in the Go body sit inside the `select`
statement, so they terminate the `select` — which has already completed —
and not the `for rows.Next()` loop.  The channel is closed (the list
ends) only when the iterator is exhausted. -/
def yieldTxnsThread : List ScanRow → List TxnRow
  | [] => []
  | r :: rest => scanToTxnRow r :: yieldTxnsThread rest

/-!
## Concrete fixtures used by the closed theorems and witnesses
-/

/-- A database in which address 1 holds only asset 9 (amount 5), with the
watermark at round 3. -/
def closeDb : DbState :=
  { accountAsset := [⟨1, 9, 5, false⟩], accountRound := some 3 }

/-- A batch whose only entry closes address 1's asset-7 holding to
address 2. -/
def closeBatch : RoundUpdates := { assetCloses := [⟨2, 7, 1⟩] }

/-- Failure oracle that fails exactly the holdings-delete of asset 7. -/
def destroyFails : Stmt → Bool := fun st => st == .destroyDel 7

/-- A database in which address 1 holds asset 7 (amount 30), with the
watermark at round 3. -/
def destroyDb : DbState :=
  { accountAsset := [⟨1, 7, 30, false⟩], accountRound := some 3 }

/-- A batch whose only entry destroys asset 7. -/
def destroyBatch : RoundUpdates := { assetDestroys := [7] }

/-- A database whose watermark is at round 3 and nothing else. -/
def staleDb : DbState := { accountRound := some 3 }

/-- A database holding only the block header of round 0, whose fee sink
is address 42 and rewards pool address 43. -/
def round0Db : DbState := { blockHeaders := [(0, ⟨42, 43, 9⟩)] }

/-- A payment of 200 from address 1 to address 2 with fee 10 and no
rewards. -/
def payStxn : SignedTxnInBlock :=
  { txn := { txType := "pay", sender := 1, fee := 10, amount := 200, receiver := 2 } }

/-- Scan outcomes where the first row fails to scan and the second row is
fine. -/
def errScanRows : List ScanRow := [.error (), .ok (5, 0, .error ())]

/-- A database whose watermark is at round 1. -/
def c4Db : DbState := { accountRound := some 1 }

/-- An engine in round 2 holding one pending algo delta. -/
def c4Eng : AccountingState :=
  { currentRound := 2, updates := { algoUpdates := [(5, 7)] } }

/-- The database after committing `c4Eng`'s batch over `c4Db`. -/
def c4Db2 : DbState := { account := [⟨5, 7, 0⟩], accountRound := some 2 }

/-- The engine after that commit: batch cleared. -/
def c4Eng2 : AccountingState := { currentRound := 2 }

/-- An empty database. -/
def emptyDb : DbState := {}

/-- An engine sitting in round 1 with running transaction counter 7. -/
def c5Eng : AccountingState := { currentRound := 1, txnCounter := 7 }

/-- An asset-creation transaction: target ID 0, total supply 1000,
creator address 1. -/
def c5Stxn : SignedTxnInBlock :=
  { txn := { txType := "acfg", sender := 1, configAsset := 0,
             assetParams := { total := 1000 } } }

/-- An asset-creation transaction whose total supply `2^63` does not fit
in an `int64`. -/
def c5WrapStxn : SignedTxnInBlock :=
  { txn := { txType := "acfg", sender := 1, configAsset := 0,
             assetParams := { total := 2 ^ 63 } } }

/-- An engine in round 1 with fee sink 3 and rewards pool 4. -/
def c8Eng : AccountingState := { currentRound := 1, feeAddr := 3, rewardAddr := 4 }

/-- An engine sitting in round 1 with everything else zero. -/
def c10Eng : AccountingState := { currentRound := 1 }

/-- A transaction with an unknown type tag, fee 10 and a sender reward 5. -/
def c10Stxn : SignedTxnInBlock :=
  { txn := { txType := "frog", sender := 1, fee := 10 }, senderRewards := 5 }

/-!
## Theorems
-/

/-- **C1** (settled as a code bug): applying the closure `(sender 1,
asset 7, closeTo 2)` to a database where address 1 holds only asset 9
succeeds, yet it deletes address 1's asset-9 row (the `DELETE` filters on
the address alone) and credits address 2's asset-7 holding with 5 — the
amount of address 1's *asset-9* row, though address 1's pre-close asset-7
amount was 0 (no row).  This contradicts the claim that only the closed
asset's row is removed and that close-to gains exactly the sender's
pre-close amount of that asset. -/
theorem close_deletes_other_assets_and_miscredits :
    aaLookup closeDb.accountAsset 1 9 = some 5 ∧
    aaLookup closeDb.accountAsset 1 7 = none ∧
    CommitRoundAccounting noFail closeDb closeBatch 4 0 =
      .ok { accountAsset := [⟨2, 7, 5, false⟩], accountRound := some 4 } ∧
    (CommitRoundAccounting noFail closeDb closeBatch 4 0).toOption.map
        (fun s => (aaLookup s.accountAsset 1 9, aaLookup s.accountAsset 2 7))
      = some (none, some 5) := by
  decide

/-- **C2** (settled as a code bug): when the holdings-delete of asset 7
fails during an asset destruction, `CommitRoundAccounting` nevertheless
returns success: the destroy loop discards the `Exec` error, the
watermark still advances to the committed round, and the undeleted
holding row survives — the commit is not aborted. -/
theorem destroy_delete_failure_does_not_abort :
    destroyFails (.destroyDel 7) = true ∧
    CommitRoundAccounting destroyFails destroyDb destroyBatch 4 0 =
      .ok { accountAsset := [⟨1, 7, 30, false⟩], accountRound := some 4 } := by
  decide

/-- **C4**, counterexample: committing an entirely empty batch for round 5
over a database whose watermark is 3 returns success but leaves the
watermark at 3, not 5 — the claim's "watermark equals that round after
every successful commit" fails for empty batches. -/
theorem commit_empty_batch_keeps_old_watermark :
    CommitRoundAccounting noFail staleDb {} 5 0 = .ok staleDb ∧
    staleDb.accountRound = some 3 ∧ some (3 : Int) ≠ some (5 : Int) := by
  decide

/-- **C6** (settled as a code bug): the very first transaction the engine
sees, arriving for round 0, does not trigger the round-initialization:
the zero-valued `currentRound` already equals 0, so `initRound` is never
called even though round 0's block header (fee sink 42, rewards pool 43)
is persisted — the fee sink and rewards pool stay at the zero address and
the fee is credited to address 0. -/
theorem round0_first_txn_skips_initRound :
    round0Db.blockHeaders.find? (fun p => p.1 == 0) = some (0, ⟨42, 43, 9⟩) ∧
    (AddTransaction noFail round0Db New 0 0 (.ok payStxn)).2.2 = none ∧
    ((AddTransaction noFail round0Db New 0 0 (.ok payStxn)).2.1).feeAddr = 0 ∧
    ((AddTransaction noFail round0Db New 0 0 (.ok payStxn)).2.1).rewardAddr = 0 ∧
    ((AddTransaction noFail round0Db New 0 0 (.ok payStxn)).2.1).rewardsLevel = 0 ∧
    ((AddTransaction noFail round0Db New 0 0 (.ok payStxn)).2.1).updates.algoUpdates
      = [(1, -210), (0, 10), (2, 200)] ∧
    (42 : Addr) ≠ 0 := by
  decide

/-- **C9** (settled as a code bug): when the first scan fails and a second
row scans fine, the thread emits the error-valued element and then a
further *normal* element — the `break` after sending the error row exits
only the `select`, not the loop, so the error element is not final. -/
theorem error_element_is_not_final :
    yieldTxnsThread errScanRows =
      [{ error := true }, { round := 5, intra := 0, txnBytes := .error () }] ∧
    ((yieldTxnsThread errScanRows).get? 0).map TxnRow.error = some true ∧
    ((yieldTxnsThread errScanRows).get? 1).map TxnRow.error = some false := by
  decide


/-- **C7**: when all six delta categories are empty, the commit returns
success with the database untouched — in particular the watermark and
every table keep their prior contents, so an empty round causes no
spurious writes. -/
theorem CommitRoundAccounting_empty_batch_noop (fails : Stmt → Bool)
    (s : DbState) (u : RoundUpdates) (round rb : Nat)
    (hb : fails .beginTx = false)
    (h1 : u.algoUpdates = []) (h2 : u.acfgUpdates = [])
    (h3 : u.assetUpdates = []) (h4 : u.freezeUpdates = [])
    (h5 : u.assetCloses = []) (h6 : u.assetDestroys = []) :
    CommitRoundAccounting fails s u round rb = .ok s := by
  simp [CommitRoundAccounting, hb, h1, h2, h3, h4, h5, h6,
        applyAlgoUpdates, applyAcfgUpdates, applyAssetUpdates,
        applyFreezeUpdates, applyAssetCloses, applyAssetDestroys, anyUpdates,
        pure, Except.pure]

/-- Witness for `CommitRoundAccounting_empty_batch_noop` at a concrete
database and the all-empty batch. -/
theorem CommitRoundAccounting_empty_batch_noop_witness :
    CommitRoundAccounting noFail staleDb {} 5 0 = .ok staleDb :=
  CommitRoundAccounting_empty_batch_noop noFail staleDb {} 5 0
    rfl rfl rfl rfl rfl rfl rfl

/-- A successful `CommitRoundAccounting` of a batch with at least one
nonempty delta category leaves the persisted watermark at the committed
round. -/
theorem CommitRoundAccounting_ok_watermark (fails : Stmt → Bool)
    (s : DbState) (u : RoundUpdates) (round rb : Nat) (s2 : DbState)
    (h : CommitRoundAccounting fails s u round rb = .ok s2)
    (hany : anyUpdates u = true) :
    s2.accountRound = some (round : Int) := by
  unfold CommitRoundAccounting at h
  rw [hany] at h
  simp only [if_true] at h
  iterate 9 (split at h <;> try cases h)
  rfl

/-- **C4**, amended: after a successful engine-side `commitRound` the
pending batch is always cleared, and — provided the batch had at least
one nonempty delta category — the persisted watermark equals the
committed round.  (For an entirely empty batch the commit is a no-op and
the watermark keeps its previous value.) -/
theorem commitRound_success_clears_batch_and_sets_watermark
    (fails : Stmt → Bool) (s : DbState) (e : AccountingState)
    (s2 : DbState) (e2 : AccountingState)
    (h : commitRound fails s e = .ok (s2, e2)) :
    e2.updates = ({} : RoundUpdates) ∧
    (anyUpdates e.updates = true →
      s2.accountRound = some (e.currentRound : Int)) := by
  unfold commitRound at h
  cases hc : CommitRoundAccounting fails s e.updates e.currentRound e.rewardsLevel with
  | error err => rw [hc] at h; cases h
  | ok s3 =>
    rw [hc] at h
    cases h
    exact ⟨rfl, fun hany =>
      CommitRoundAccounting_ok_watermark _ _ _ _ _ _ hc hany⟩

/-- Witness for `commitRound_success_clears_batch_and_sets_watermark` at a
concrete nonempty batch. -/
theorem commitRound_success_clears_batch_and_sets_watermark_witness :
    c4Eng2.updates = ({} : RoundUpdates) ∧
    (anyUpdates c4Eng.updates = true →
      c4Db2.accountRound = some (c4Eng.currentRound : Int)) :=
  commitRound_success_clears_batch_and_sets_watermark noFail c4Db c4Eng
    c4Db2 c4Eng2 (by decide)

theorem updateAlgo_txnCounter (e : AccountingState) (a : Addr) (d : Int) :
    (updateAlgo e a d).txnCounter = e.txnCounter := rfl

theorem feeAndRewardDeltas_txnCounter (e : AccountingState)
    (stxn : SignedTxnInBlock) :
    (feeAndRewardDeltas e stxn).txnCounter = e.txnCounter := by
  unfold feeAndRewardDeltas
  split <;> rfl

set_option maxHeartbeats 1000000 in
theorem payDeltas_txnCounter (e : AccountingState) (stxn : SignedTxnInBlock) :
    (payDeltas e stxn).txnCounter = e.txnCounter := by
  simp only [payDeltas]
  split_ifs <;> rfl

theorem acfgDeltas_txnCounter (e : AccountingState) (intra : Nat)
    (stxn : SignedTxnInBlock) :
    (acfgDeltas e intra stxn).txnCounter = e.txnCounter := by
  simp only [acfgDeltas]
  split_ifs <;> rfl

theorem axferDeltas_txnCounter (e : AccountingState) (stxn : SignedTxnInBlock) :
    (axferDeltas e stxn).txnCounter = e.txnCounter := by
  simp only [axferDeltas]
  split_ifs <;> rfl

theorem typeDispatch_txnCounter (e : AccountingState) (intra : Nat)
    (stxn : SignedTxnInBlock) :
    ((typeDispatch e intra stxn).1).txnCounter = e.txnCounter := by
  simp only [typeDispatch]
  split_ifs <;>
    simp [payDeltas_txnCounter, acfgDeltas_txnCounter, axferDeltas_txnCounter,
          freezeAsset]

theorem initRound_txnCounter (s : DbState) (e : AccountingState) (round : Nat)
    (e2 : AccountingState) (h : initRound s e round = .ok e2) :
    e2.txnCounter = e.txnCounter := by
  unfold initRound at h
  split at h
  · cases h
  · cases h; rfl

theorem commitRound_txnCounter (fails : Stmt → Bool) (s : DbState)
    (e : AccountingState) (s2 : DbState) (e2 : AccountingState)
    (h : commitRound fails s e = .ok (s2, e2)) :
    e2.txnCounter = e.txnCounter := by
  unfold commitRound at h
  split at h
  · cases h
  · cases h; rfl

theorem roundTransition_txnCounter (fails : Stmt → Bool) (s : DbState)
    (e : AccountingState) (round : Nat) :
    (((roundTransition fails s e round).2).1).txnCounter = e.txnCounter := by
  unfold roundTransition
  split
  · rfl
  · split
    · rfl
    · rename_i s2 e2 hc
      split
      · exact commitRound_txnCounter fails s e s2 e2 hc
      · rename_i e3 hinit
        rw [initRound_txnCounter s2 e2 round e3 hinit]
        exact commitRound_txnCounter fails s e s2 e2 hc

/-- **C3** (settled as a code bug): the engine's running transaction
counter starts at 0 and is never modified by `AddTransaction` (no code
path assigns it), so after any number of processed transactions it still
reads 0 instead of the total count of transactions processed since
genesis — while still being the value used as `c` when assigning new
asset IDs. -/
theorem AddTransaction_txnCounter_constant :
    New.txnCounter = 0 ∧
    ∀ (fails : Stmt → Bool) (s : DbState) (e : AccountingState)
      (round intra : Nat) (b : TxnBytes),
      (((AddTransaction fails s e round intra b).2).1).txnCounter
        = e.txnCounter := by
  refine ⟨rfl, ?_⟩
  intro fails s e round intra b
  cases b with
  | error u => rfl
  | ok stxn =>
    have hrt0 := roundTransition_txnCounter fails s e round
    unfold AddTransaction
    dsimp only
    rcases hrt : roundTransition fails s e round with ⟨s2, e2, oerr⟩
    rw [hrt] at hrt0
    dsimp only at hrt0
    cases oerr with
    | some err => dsimp only; exact hrt0
    | none =>
      dsimp only
      have htd0 := typeDispatch_txnCounter (feeAndRewardDeltas e2 stxn) intra stxn
      rcases htd : typeDispatch (feeAndRewardDeltas e2 stxn) intra stxn with ⟨e6, err⟩
      rw [htd] at htd0
      dsimp only at htd0
      rw [htd0, feeAndRewardDeltas_txnCounter, hrt0]

theorem roundTransition_same (fails : Stmt → Bool) (s : DbState)
    (e : AccountingState) (round : Nat) (hr : e.currentRound = round) :
    roundTransition fails s e round = (s, e, none) := by
  simp [roundTransition, hr]

theorem feeAndRewardDeltas_acfgUpdates (e : AccountingState)
    (stxn : SignedTxnInBlock) :
    (feeAndRewardDeltas e stxn).updates.acfgUpdates
      = e.updates.acfgUpdates := by
  unfold feeAndRewardDeltas
  split <;> rfl

theorem feeAndRewardDeltas_assetUpdates (e : AccountingState)
    (stxn : SignedTxnInBlock) :
    (feeAndRewardDeltas e stxn).updates.assetUpdates
      = e.updates.assetUpdates := by
  unfold feeAndRewardDeltas
  split <;> rfl

theorem feeAndRewardDeltas_assetDestroys (e : AccountingState)
    (stxn : SignedTxnInBlock) :
    (feeAndRewardDeltas e stxn).updates.assetDestroys
      = e.updates.assetDestroys := by
  unfold feeAndRewardDeltas
  split <;> rfl

theorem feeAndRewardDeltas_defaultFrozen (e : AccountingState)
    (stxn : SignedTxnInBlock) :
    (feeAndRewardDeltas e stxn).defaultFrozen = e.defaultFrozen := by
  unfold feeAndRewardDeltas
  split <;> rfl

/-- **C5**, amended: an asset-configuration transaction targeting asset
ID 0 is a creation: it is assigned ID `txnCounter + intra + 1`; unless
the supplied parameters are the zero value it appends the asset-parameter
upsert and — with nonzero total supply `T` — records an asset-holding
delta crediting the creator with `int64(T)`, which equals `T` exactly
whenever `T < 2^63` (for larger totals the recorded delta wraps to
`T − 2^64`); zero-valued parameters instead record an asset destruction
under the same assigned ID. -/
theorem AddTransaction_acfg_creation (fails : Stmt → Bool) (s : DbState)
    (e : AccountingState) (round intra : Nat) (stxn : SignedTxnInBlock)
    (hr : e.currentRound = round)
    (ht : stxn.txn.txType = "acfg")
    (hc : stxn.txn.configAsset = 0) :
    (stxn.txn.assetParams.IsZero = false →
      (((AddTransaction fails s e round intra (.ok stxn)).2).1).updates.acfgUpdates
        = e.updates.acfgUpdates
          ++ [⟨e.txnCounter + intra + 1, stxn.txn.sender, stxn.txn.assetParams⟩] ∧
      ((AddTransaction fails s e round intra (.ok stxn)).2).2 = none ∧
      (stxn.txn.assetParams.total ≠ 0 →
        ((((AddTransaction fails s e round intra (.ok stxn)).2).1).updates.assetUpdates).map
            (fun u => (u.addr, u.assetId, u.delta))
          = (e.updates.assetUpdates).map (fun u => (u.addr, u.assetId, u.delta))
            ++ [(stxn.txn.sender, e.txnCounter + intra + 1,
                 int64OfUint64 stxn.txn.assetParams.total)])) ∧
    (stxn.txn.assetParams.IsZero = true →
      (((AddTransaction fails s e round intra (.ok stxn)).2).1).updates.assetDestroys
        = e.updates.assetDestroys ++ [e.txnCounter + intra + 1] ∧
      ((AddTransaction fails s e round intra (.ok stxn)).2).2 = none) ∧
    (stxn.txn.assetParams.total < 2 ^ 63 →
      int64OfUint64 stxn.txn.assetParams.total
        = (stxn.txn.assetParams.total : Int)) := by
  have hf1 := feeAndRewardDeltas_acfgUpdates e stxn
  have hf2 := feeAndRewardDeltas_assetUpdates e stxn
  have hf3 := feeAndRewardDeltas_assetDestroys e stxn
  have hf4 := feeAndRewardDeltas_txnCounter e stxn
  have hrt := roundTransition_same fails s e round hr
  unfold AddTransaction
  dsimp only
  rw [hrt]
  dsimp only
  simp only [typeDispatch, ht]
  norm_num
  rw [if_neg (by decide : ¬("acfg" : String) = "pay"),
      if_neg (by decide : ¬("acfg" : String) = "keyreg")]
  refine ⟨?_, ?_, ?_⟩
  · intro hz
    simp only [acfgDeltas, hc, hz]
    refine ⟨?_, ?_, ?_⟩
    · split_ifs <;> simp_all [updateAsset]
    · trivial
    · intro htot
      have hcond : (0 == 0 && stxn.txn.assetParams.total != 0) = true := by
        simp [htot]
      simp only [hcond, if_true]
      simp [updateAsset, hf2, hf4]
  · intro hz
    simp only [acfgDeltas, hc, hz]
    constructor
    · simp [destroyAsset, hf3, hf4]
    · trivial
  · intro hlt
    simp [int64OfUint64, hlt]

/-- Witness for `AddTransaction_acfg_creation`: creating asset
ID 7+0+1 = 8 with total supply 1000 (< 2^63, so credited exactly) from an
engine in round 1. -/
theorem AddTransaction_acfg_creation_witness :
    (c5Stxn.txn.assetParams.IsZero = false →
      (((AddTransaction noFail emptyDb c5Eng 1 0 (.ok c5Stxn)).2).1).updates.acfgUpdates
        = c5Eng.updates.acfgUpdates
          ++ [⟨c5Eng.txnCounter + 0 + 1, c5Stxn.txn.sender, c5Stxn.txn.assetParams⟩] ∧
      ((AddTransaction noFail emptyDb c5Eng 1 0 (.ok c5Stxn)).2).2 = none ∧
      (c5Stxn.txn.assetParams.total ≠ 0 →
        ((((AddTransaction noFail emptyDb c5Eng 1 0 (.ok c5Stxn)).2).1).updates.assetUpdates).map
            (fun u => (u.addr, u.assetId, u.delta))
          = (c5Eng.updates.assetUpdates).map (fun u => (u.addr, u.assetId, u.delta))
            ++ [(c5Stxn.txn.sender, c5Eng.txnCounter + 0 + 1,
                 int64OfUint64 c5Stxn.txn.assetParams.total)])) ∧
    (c5Stxn.txn.assetParams.IsZero = true →
      (((AddTransaction noFail emptyDb c5Eng 1 0 (.ok c5Stxn)).2).1).updates.assetDestroys
        = c5Eng.updates.assetDestroys ++ [c5Eng.txnCounter + 0 + 1] ∧
      ((AddTransaction noFail emptyDb c5Eng 1 0 (.ok c5Stxn)).2).2 = none) ∧
    (c5Stxn.txn.assetParams.total < 2 ^ 63 →
      int64OfUint64 c5Stxn.txn.assetParams.total
        = (c5Stxn.txn.assetParams.total : Int)) :=
  AddTransaction_acfg_creation noFail emptyDb c5Eng 1 0 c5Stxn rfl rfl rfl

/-- **C5**, counterexample: the claim's "crediting the creator with
exactly `T`" fails at total supply `T = 2^63`: the source records
`int64(Total)`, which reinterprets `2^63` as `−2^63`, so the recorded
holding delta for the creator is negative rather than equal to `T`. -/
theorem acfg_creation_total_wraps :
    c5WrapStxn.txn.assetParams.total = 2 ^ 63 ∧
    ((((AddTransaction noFail emptyDb c5Eng 1 0 (.ok c5WrapStxn)).2).1).updates.assetUpdates).map
        (fun u => (u.addr, u.assetId, u.delta))
      = [(1, 8, -(2 ^ 63 : Int))] ∧
    -(2 ^ 63 : Int) ≠ ((2 ^ 63 : Nat) : Int) := by
  decide

/-- **C8**: a payment of 200 with fee 10 and no rewards, from a sender
and receiver distinct from each other and from the fee sink, accumulates
deltas sender = −210, fee sink = +10, receiver = +200; the association
list's order shows the fee entries were recorded first (the sender's and
fee sink's entries are created by the fee step, before the payment
amount is merged in). -/
theorem AddTransaction_pay_fee_first (fails : Stmt → Bool) (s : DbState)
    (e : AccountingState) (round intra : Nat) (A B : Addr)
    (hr : e.currentRound = round)
    (h0 : e.updates.algoUpdates = [])
    (hAB : A ≠ B) (hAf : A ≠ e.feeAddr) (hBf : B ≠ e.feeAddr) :
    (AddTransaction fails s e round intra
      (.ok { txn := { txType := "pay", sender := A, fee := 10, amount := 200, receiver := B } })).1 = s ∧
    ((AddTransaction fails s e round intra
      (.ok { txn := { txType := "pay", sender := A, fee := 10, amount := 200, receiver := B } })).2).2 = none ∧
    (((AddTransaction fails s e round intra
      (.ok { txn := { txType := "pay", sender := A, fee := 10, amount := 200, receiver := B } })).2).1).updates.algoUpdates
      = [(A, -210), (e.feeAddr, 10), (B, 200)] := by
  have hrt := roundTransition_same fails s e round hr
  have hAB' : (A == B) = false := by simp [hAB]
  have hBA' : (B == A) = false := by simp [Ne.symm hAB]
  have hAf' : (A == e.feeAddr) = false := by simp [hAf]
  have hfA' : (e.feeAddr == A) = false := by simp [Ne.symm hAf]
  have hBf' : (B == e.feeAddr) = false := by simp [hBf]
  have hfB' : (e.feeAddr == B) = false := by simp [Ne.symm hBf]
  unfold AddTransaction
  dsimp only
  rw [hrt]
  dsimp only
  simp [typeDispatch, feeAndRewardDeltas, payDeltas, updateAlgo, algoAdd, h0,
        hAB', hBA', hAf', hfA', hBf', hfB', hAB, hAf, hBf,
        Ne.symm hAB, Ne.symm hAf, Ne.symm hBf]

/-- **C10**: when `AddTransaction` hits an unknown transaction type in
the same round, it returns the unsupported-type error *after* the fee
(and sender-reward) deltas were already added to the pending batch — the
result engine is exactly `feeAndRewardDeltas` of the input, not rolled
back; by contrast a decode failure returns with the database, engine and
batch entirely unchanged. -/
theorem AddTransaction_unknown_type_keeps_fees (fails : Stmt → Bool)
    (s : DbState) (e : AccountingState) (round intra : Nat)
    (stxn : SignedTxnInBlock)
    (hr : e.currentRound = round)
    (h1 : stxn.txn.txType ≠ "pay") (h2 : stxn.txn.txType ≠ "keyreg")
    (h3 : stxn.txn.txType ≠ "acfg") (h4 : stxn.txn.txType ≠ "axfer")
    (h5 : stxn.txn.txType ≠ "afrz") :
    AddTransaction fails s e round intra (.ok stxn)
      = (s, feeAndRewardDeltas e stxn, some .unknownType) ∧
    AddTransaction fails s e round intra (.error ()) = (s, e, some .decodeErr) := by
  refine ⟨?_, rfl⟩
  have hrt := roundTransition_same fails s e round hr
  unfold AddTransaction
  dsimp only
  rw [hrt]
  dsimp only
  simp [typeDispatch, h1, h2, h3, h4, h5]

/-- Witness for `AddTransaction_unknown_type_keeps_fees` at a concrete
unknown-type transaction with fee 10 and sender reward 5. -/
theorem AddTransaction_unknown_type_keeps_fees_witness :
    AddTransaction noFail emptyDb c10Eng 1 0 (.ok c10Stxn)
      = (emptyDb, feeAndRewardDeltas c10Eng c10Stxn, some .unknownType) ∧
    AddTransaction noFail emptyDb c10Eng 1 0 (.error ())
      = (emptyDb, c10Eng, some .decodeErr) :=
  AddTransaction_unknown_type_keeps_fees noFail emptyDb c10Eng 1 0 c10Stxn
    rfl (by decide) (by decide) (by decide) (by decide) (by decide)

/-- Witness for `AddTransaction_pay_fee_first` at concrete addresses
1 (sender), 2 (receiver) and fee sink 3. -/
theorem AddTransaction_pay_fee_first_witness :
    (AddTransaction noFail emptyDb c8Eng 1 0
      (.ok { txn := { txType := "pay", sender := 1, fee := 10, amount := 200, receiver := 2 } })).1 = emptyDb ∧
    ((AddTransaction noFail emptyDb c8Eng 1 0
      (.ok { txn := { txType := "pay", sender := 1, fee := 10, amount := 200, receiver := 2 } })).2).2 = none ∧
    (((AddTransaction noFail emptyDb c8Eng 1 0
      (.ok { txn := { txType := "pay", sender := 1, fee := 10, amount := 200, receiver := 2 } })).2).1).updates.algoUpdates
      = [(1, -210), (c8Eng.feeAddr, 10), (2, 200)] :=
  AddTransaction_pay_fee_first noFail emptyDb c8Eng 1 0 1 2
    rfl rfl (by decide) (by decide) (by decide)
